import Mathlib

/-!
Shallow embedding of `src/universal_rag_chat/rag_agent.py`
(`UniversalRAGAgent`): the agent/thread lifecycle orchestrator of the
RAG chat front end.

Modelling conventions:
* Provider (Azure AI Foundry) calls are modelled by environments whose
  fields hold each call's outcome as `Except String α`; `Except.error`
  models the call raising an exception.
* The Python object's mutable attributes (`_initialized`, `agent_id`,
  `_selected_model`) become an explicit `AgentState` threaded through
  the operations.
* A Python method that may raise returns `Except String α`; the
  `try/except` blocks of the source become `match` on those results.
* The dicts returned by `chat` become the structure `ChatResult`; its
  `citations` field is an `Option` so that `none` models the
  `"citations"` key being absent from the returned dict (as happens on
  the two error paths of `chat`).
* Side-effect-only provider calls relevant to the spec (agent deletion
  and creation) are additionally recorded as an `AgentEvent` trace so
  that ordering claims ("deletion requested before creation") can be
  stated.
* Telemetry (spans, logging) has no observable effect on results and is
  not modelled.
-/

/-- A remote agent resource, as returned by `agents_client.create_agent`. -/
structure Agent where
  id : String
deriving DecidableEq, Repr

/-- A remote thread resource (`threads.create` / `threads.get`). -/
structure ThreadH where
  id : String
deriving DecidableEq, Repr

/-- One entry of the provider's deployment catalog (`deployments.list`). -/
structure Deployment where
  name : String
  modelPublisher : String
  modelName : String
  modelVersion : String
deriving DecidableEq, Repr

/-- One text segment of a provider message (`text_msg.text.value`). -/
structure TextSegment where
  value : String
deriving DecidableEq, Repr

/-- The payload of a url-citation annotation (`annotation.url_citation`). -/
structure UrlCitationData where
  title : String
  url : String
deriving DecidableEq, Repr

/-- A message from `messages.list`: role, text segments
(`msg.text_messages`), url-citation annotations
(`msg.url_citation_annotations`, here `url_citations`), creation time. -/
structure ProviderMessage where
  role : String
  text_messages : List TextSegment
  url_citations : List UrlCitationData
  created_at : Nat
deriving DecidableEq, Repr

/-- A terminal run, as returned by `runs.create_and_process`. -/
structure RunR where
  status : String
  last_error : String
deriving DecidableEq, Repr

/-- The dict returned by `UniversalRAGAgent.chat`.  `citations = none`
models the `"citations"` key being absent from the dict. -/
structure ChatResult where
  thread_id : Option String
  response : String
  citations : Option (List UrlCitationData)
  status : String
deriving DecidableEq, Repr

/-- One entry of the list returned by `get_thread_history`. -/
structure HistoryRecord where
  role : String
  content : String
  timestamp : Nat
deriving DecidableEq, Repr

/-- One entry of the list returned by `available_models`. -/
structure ModelInfo where
  name : String
  modelPublisher : String
  modelName : String
  modelVersion : String
deriving DecidableEq, Repr

/-- The mutable attributes of a `UniversalRAGAgent` instance. -/
structure AgentState where
  initialized : Bool
  agent_id : Option String
  selected_model : Option String
deriving DecidableEq, Repr

/-- The state set by `UniversalRAGAgent.__init__`. -/
def initialState : AgentState :=
  { initialized := false, agent_id := none, selected_model := none }

/-- Trace events for the agent-lifecycle provider calls. -/
inductive AgentEvent where
  | deleteRequested (id : String)
  | created (id : String)
deriving DecidableEq, Repr

/-- Outcomes of the provider calls made by `initialize` /
`_create_agent` / `_delete_agent` / `_get_model_by_name`, plus the
configured default deployment (`settings.model_deployment_name`). -/
structure InitEnv where
  deployments : Except String (List Deployment)
  deleteResult : Except String Unit
  createResult : Except String Agent
  model_deployment_name : String

/-- Outcomes of the provider calls made by `chat` /
`get_thread_history` / `available_models` (each a function of the
arguments the Python code passes). -/
structure ChatEnv where
  init : InitEnv
  threadsGet : String → Except String ThreadH
  threadsCreate : Except String ThreadH
  messagesCreate : String → String → Except String Unit
  runsCreateAndProcess : String → Option String → Except String RunR
  messagesList : String → Except String (List ProviderMessage)

/-- `_get_model_by_name` (rag_agent.py:295-311): `None` in, `None` out;
otherwise scan the catalog for the first deployment whose `modelName`
matches and return its `name`; any provider error is swallowed to
`None`. -/
def getModelByName (env : InitEnv) (model_name : Option String) :
    Option String :=
  match model_name with
  | none => none
  | some mn =>
    match env.deployments with
    | .error _ => none
    | .ok ds => Option.map (fun d => d.name) (ds.find? (fun d => d.modelName == mn))

/-- `_delete_agent` (rag_agent.py:313-324): skip when no agent id is
held; otherwise request deletion and swallow any provider error.  The
instance state is unchanged in every case (the Python method never
resets `self.agent_id`); only the issued request is recorded. -/
def runDeleteAgent (st : AgentState) (env : InitEnv) : List AgentEvent :=
  match st.agent_id with
  | none => []
  | some aid =>
    match env.deleteResult with
    | .ok _ => [AgentEvent.deleteRequested aid]
    | .error _ => [AgentEvent.deleteRequested aid]

/-- `_create_agent` (rag_agent.py:141-162): best-effort deletion of any
held agent, then remote creation; creation failure is logged and
re-raised (state unchanged), success stores the new agent id. -/
def createAgent (st : AgentState) (env : InitEnv) :
    AgentState × Except String Unit × List AgentEvent :=
  let delEvents := runDeleteAgent st env
  match env.createResult with
  | .error e => (st, .error e, delEvents)
  | .ok agent =>
      ({ st with agent_id := some agent.id }, .ok (),
        delEvents ++ [AgentEvent.created agent.id])

/-- `initialize` (rag_agent.py:89-100), here `initAgent`: select the
model (resolution falling back to the configured default), create the
agent, and only then set `_initialized`.  A creation failure propagates
with `_initialized` and `agent_id` untouched. -/
def initAgent (st : AgentState) (env : InitEnv) (model_name : Option String) :
    AgentState × Except String Unit × List AgentEvent :=
  let sel := (getModelByName env model_name).getD env.model_deployment_name
  let st1 := { st with selected_model := some sel }
  match createAgent st1 env with
  | (st2, .error e, evs) => (st2, .error e, evs)
  | (st2, .ok _, evs) => ({ st2 with initialized := true }, .ok (), evs)

/-- The head of `msg.text_messages`, or `""` (rag_agent.py:230-233 and
276-280: `content`/`response_content` keeps its initial `""` when the
message has no text segment, else takes the first segment's value). -/
def firstText (segs : List TextSegment) : String :=
  match segs with
  | [] => ""
  | t :: _ => t.value

/-- The response-extraction loop of `chat` (rag_agent.py:228-234): the
loop body runs `break` at the first assistant-role message, after
storing that message's first text segment (if any); non-assistant
messages are skipped. -/
def responseFromMessages : List ProviderMessage → String
  | [] => ""
  | m :: rest =>
    if m.role == "assistant" then firstText m.text_messages
    else responseFromMessages rest

/-- The citation-collection loop of `chat` (rag_agent.py:237-243):
every assistant-role message contributes all its url-citation
annotations, in order, with no de-duplication. -/
def citationsFromMessages : List ProviderMessage → List UrlCitationData
  | [] => []
  | m :: rest =>
    (if m.role == "assistant" then m.url_citations else [])
      ++ citationsFromMessages rest

/-- The fixed apology of the classified run-failure path
(rag_agent.py:216). -/
def runFailedApology : String :=
  "I encountered an error processing your request. Please try again."

/-- The fixed apology of the outer `except` handler of `chat`
(rag_agent.py:262). -/
def unexpectedApology : String :=
  "I encountered an error processing your request. Please try again later."

/-- The dict built by the outer `except` handler of `chat`
(rag_agent.py:260-264): the `thread_id` local at the moment of the
exception, the generic apology, no `"citations"` key, status error. -/
def degraded (tid : Option String) : ChatResult :=
  { thread_id := tid, response := unexpectedApology, citations := none,
    status := "error" }

/-- `chat` from the message-posting step on (rag_agent.py:196-253),
with the resolved thread id `tid` in hand: post the user message, run
the agent, classify the terminal status (`failed` gives the fixed
degraded dict of rag_agent.py:214-218), else list the messages and
extract text and citations (rag_agent.py:248-253).  A provider error
anywhere here falls to the outer handler with `thread_id = some tid`. -/
def chatAfterThread (st : AgentState) (env : ChatEnv) (message : String)
    (tid : String) : ChatResult :=
  match env.messagesCreate tid message with
  | .error _ => degraded (some tid)
  | .ok _ =>
    match env.runsCreateAndProcess tid st.agent_id with
    | .error _ => degraded (some tid)
    | .ok run =>
      if run.status == "failed" then
        { thread_id := some tid, response := runFailedApology,
          citations := none, status := "error" }
      else
        match env.messagesList tid with
        | .error _ => degraded (some tid)
        | .ok msgs =>
          { thread_id := some tid,
            response := responseFromMessages msgs,
            citations := some (citationsFromMessages msgs),
            status := "success" }

/-- The body of the `try` block of `chat` (rag_agent.py:182-253)
together with its `except` handler (rag_agent.py:255-264): resolve the
thread (fetch the supplied id, or create a new thread and rebind
`thread_id` to its id), then run the exchange.  An exception raised by
`threads.get` reaches the handler with `thread_id` still the supplied
id; one raised by `threads.create` reaches it with `thread_id` still
`None`. -/
def chatPipeline (st : AgentState) (env : ChatEnv) (message : String)
    (thread_id : Option String) : ChatResult :=
  match thread_id with
  | some t =>
    match env.threadsGet t with
    | .error _ => degraded (some t)
    | .ok _ => chatAfterThread st env message t
  | none =>
    match env.threadsCreate with
    | .error _ => degraded none
    | .ok th => chatAfterThread st env message th.id

/-- `chat` (rag_agent.py:172-264).  The lazy self-initialization of
rag_agent.py:174-175 runs before (outside) the `try` block, so its
failure propagates out of `chat` (the `Except.error` case). -/
def chat (st : AgentState) (env : ChatEnv) (message : String)
    (thread_id : Option String) : AgentState × Except String ChatResult :=
  if st.initialized then
    (st, .ok (chatPipeline st env message thread_id))
  else
    match initAgent st env.init none with
    | (st1, .error e, _) => (st1, .error e)
    | (st1, .ok _, _) => (st1, .ok (chatPipeline st1 env message thread_id))

/-- The record built for one message by `get_thread_history`
(rag_agent.py:276-286). -/
def historyRecordOf (m : ProviderMessage) : HistoryRecord :=
  { role := m.role, content := firstText m.text_messages,
    timestamp := m.created_at }

/-- The history list built from a provider (newest-first) message list
(rag_agent.py:274-289): one record per message, then reversed to
chronological order. -/
def threadHistoryOf (msgs : List ProviderMessage) : List HistoryRecord :=
  (msgs.map historyRecordOf).reverse

/-- `get_thread_history` (rag_agent.py:266-293): lazy initialization
outside the `try`; inside it, list the thread's messages and build the
chronological history, degrading to `[]` on any provider error. -/
def getThreadHistory (st : AgentState) (env : ChatEnv) (tid : String) :
    AgentState × Except String (List HistoryRecord) :=
  if st.initialized then
    (st, .ok (match env.messagesList tid with
              | .error _ => []
              | .ok msgs => threadHistoryOf msgs))
  else
    match initAgent st env.init none with
    | (st1, .error e, _) => (st1, .error e)
    | (st1, .ok _, _) =>
      (st1, .ok (match env.messagesList tid with
                 | .error _ => []
                 | .ok msgs => threadHistoryOf msgs))

/-- The catalog entries built by `available_models`
(rag_agent.py:75-84). -/
def modelsOf (ds : List Deployment) : List ModelInfo :=
  ds.map (fun d =>
    { name := d.name, modelPublisher := d.modelPublisher,
      modelName := d.modelName, modelVersion := d.modelVersion })

/-- `available_models` (rag_agent.py:69-87): lazy initialization
outside the `try`; inside it, list the deployments, degrading to `[]`
on any provider error. -/
def availableModels (st : AgentState) (env : ChatEnv) :
    AgentState × Except String (List ModelInfo) :=
  if st.initialized then
    (st, .ok (match env.init.deployments with
              | .error _ => []
              | .ok ds => modelsOf ds))
  else
    match initAgent st env.init none with
    | (st1, .error e, _) => (st1, .error e)
    | (st1, .ok _, _) =>
      (st1, .ok (match env.init.deployments with
                 | .error _ => []
                 | .ok ds => modelsOf ds))

/-! ### Concrete fixtures used by examples, witnesses and counterexamples -/

/-- An initialization environment where every provider call succeeds. -/
def okInitEnv : InitEnv :=
  { deployments := .ok [], deleteResult := .ok (),
    createResult := .ok { id := "agent-1" },
    model_deployment_name := "gpt-default" }

/-- An initialization environment where remote agent creation raises. -/
def badInitEnv : InitEnv :=
  { okInitEnv with createResult := .error "agent creation failed" }

/-- Assistant message with text "A" and no citations (spec P4's M1). -/
def msgM1 : ProviderMessage :=
  { role := "assistant", text_messages := [{ value := "A" }],
    url_citations := [], created_at := 1 }

/-- Assistant message with text "B" and one citation (spec P4's M2). -/
def msgM2 : ProviderMessage :=
  { role := "assistant", text_messages := [{ value := "B" }],
    url_citations := [{ title := "t", url := "u" }], created_at := 2 }

/-- User message with text "A" (history scenario). -/
def msgUserA : ProviderMessage :=
  { role := "user", text_messages := [{ value := "A" }],
    url_citations := [], created_at := 1 }

/-- Assistant message with text "B" (history scenario). -/
def msgAsstB : ProviderMessage :=
  { role := "assistant", text_messages := [{ value := "B" }],
    url_citations := [], created_at := 2 }

/-- An already-initialized instance state. -/
def readySt : AgentState :=
  { initialized := true, agent_id := some "agent-0",
    selected_model := some "gpt-default" }

/-- A chat environment where every provider call succeeds and the run
completes. -/
def okChatEnv : ChatEnv :=
  { init := okInitEnv,
    threadsGet := fun t => .ok { id := t },
    threadsCreate := .ok { id := "thread-1" },
    messagesCreate := fun _ _ => .ok (),
    runsCreateAndProcess := fun _ _ =>
      .ok { status := "completed", last_error := "" },
    messagesList := fun _ => .ok [msgM2, msgM1] }

/-- A chat environment whose lazy initialization fails (agent creation
raises). -/
def badChatEnv : ChatEnv := { okChatEnv with init := badInitEnv }

/-- A run whose terminal status is `failed`. -/
def failedRun : RunR :=
  { status := "failed", last_error := "provider exploded" }

/-- A chat environment whose run ends with terminal status `failed`. -/
def failedRunEnv : ChatEnv :=
  { okChatEnv with runsCreateAndProcess := fun _ _ => Except.ok failedRun }

/-- A chat environment where catalog listing and message listing both
raise. -/
def listFailEnv : ChatEnv :=
  { okChatEnv with
    init := { okInitEnv with deployments := .error "catalog down" },
    messagesList := fun _ => .error "list down" }

/-! ### Helper lemmas -/

/-- The extraction loop's value: the first text segment of the first
assistant-role message, `""` when there is none. -/
theorem responseFromMessages_eq_find (msgs : List ProviderMessage) :
    responseFromMessages msgs =
      (match msgs.find? (fun m => m.role == "assistant") with
       | none => ""
       | some m => firstText m.text_messages) := by
  induction msgs with
  | nil => rfl
  | cons m rest ih =>
    cases h : (m.role == "assistant") with
    | true => simp [responseFromMessages, List.find?, h]
    | false => simp [responseFromMessages, List.find?, h, ih]

/-- Scanning stops at the first assistant message: messages after it
never affect the extracted text. -/
theorem responseFromMessages_stops (pre : List ProviderMessage)
    (m : ProviderMessage) (post : List ProviderMessage)
    (hm : m.role = "assistant")
    (hpre : ∀ m2 ∈ pre, m2.role ≠ "assistant") :
    responseFromMessages (pre ++ m :: post) = firstText m.text_messages := by
  induction pre with
  | nil => simp [responseFromMessages, hm]
  | cons p rest ih =>
    have hp : p.role ≠ "assistant" := hpre p (by simp)
    have hb : (p.role == "assistant") = false := by
      simp [hp]
    simp only [List.cons_append, responseFromMessages, hb, Bool.false_eq_true,
      if_false]
    exact ih (fun m2 h2 => hpre m2 (by simp [h2]))

/-- The citation loop's value: all citations of all assistant-role
messages, in list order, with no de-duplication. -/
theorem citationsFromMessages_eq_bind (msgs : List ProviderMessage) :
    citationsFromMessages msgs =
      (msgs.filter (fun m => m.role == "assistant")).flatMap
        (fun m => m.url_citations) := by
  induction msgs with
  | nil => rfl
  | cons m rest ih =>
    cases h : (m.role == "assistant") <;>
      simp [citationsFromMessages, List.filter_cons, h, ih]

/-! ### Claim theorems -/

/-- Claim C3: the extractor's response text is the first text segment of
the first assistant-role message (empty string when no assistant
message or no text segment exists, not an error); scanning stops once
that message is reached, so in particular once a non-empty assistant
text is found; citations are gathered from all assistant-role messages
in discovery order with no de-duplication; and on the newest-first list
[M2 (text "B", citation ("t","u")), M1 (text "A", no citations)] the
result is text "B" with citations [("t","u")]. -/
theorem claim_C3_extractor (msgs pre post : List ProviderMessage)
    (m : ProviderMessage) (hm : m.role = "assistant")
    (hpre : ∀ m2 ∈ pre, m2.role ≠ "assistant") :
    (responseFromMessages msgs =
      (match msgs.find? (fun mm => mm.role == "assistant") with
       | none => ""
       | some mm => firstText mm.text_messages)) ∧
    responseFromMessages (pre ++ m :: post) = firstText m.text_messages ∧
    (citationsFromMessages msgs =
      (msgs.filter (fun mm => mm.role == "assistant")).flatMap
        (fun mm => mm.url_citations)) ∧
    responseFromMessages [msgM2, msgM1] = "B" ∧
    citationsFromMessages [msgM2, msgM1] = [{ title := "t", url := "u" }] := by
  refine ⟨responseFromMessages_eq_find msgs,
    responseFromMessages_stops pre m post hm hpre,
    citationsFromMessages_eq_bind msgs, rfl, rfl⟩

/-- Claim C3 witness: the stop property applied at the concrete list
[user "A", M2, M1]. -/
theorem claim_C3_extractor_witness :
    msgM2.role = "assistant" ∧
    (∀ m2 ∈ [msgUserA], m2.role ≠ "assistant") ∧
    responseFromMessages ([msgUserA] ++ msgM2 :: [msgM1]) =
      firstText msgM2.text_messages :=
  ⟨rfl, by decide,
    (claim_C3_extractor [msgM2, msgM1] [msgUserA] [msgM1] msgM2 rfl
      (by decide)).2.1⟩

/-- Claim C9: for every thread whose message listing succeeds,
`get_thread_history` returns one record per message of either role in
chronological order (the reverse of the provider's newest-first list);
each record carries the message's role and created_at and its content
is the message's first text segment (empty string when it has none);
the provider-order list [assistant "B", user "A"] yields
[user "A", assistant "B"]. -/
theorem claim_C9_history (st : AgentState) (env : ChatEnv) (tid : String)
    (msgs : List ProviderMessage) (h1 : st.initialized = true)
    (h2 : env.messagesList tid = .ok msgs) :
    getThreadHistory st env tid = (st, .ok (msgs.reverse.map historyRecordOf)) ∧
    (msgs.reverse.map historyRecordOf).length = msgs.length ∧
    (∀ mm : ProviderMessage, historyRecordOf mm =
      { role := mm.role,
        content := (Option.map TextSegment.value mm.text_messages.head?).getD "",
        timestamp := mm.created_at }) ∧
    threadHistoryOf [msgAsstB, msgUserA] =
      [{ role := "user", content := "A", timestamp := 1 },
       { role := "assistant", content := "B", timestamp := 2 }] := by
  refine ⟨?_, by simp, ?_, rfl⟩
  · simp [getThreadHistory, h1, h2, threadHistoryOf, List.map_reverse]
  · intro mm
    cases h : mm.text_messages <;> simp [historyRecordOf, firstText, h]

/-- Claim C9 witness: the history of the fixture environment, whose
listing returns [M2, M1]. -/
theorem claim_C9_history_witness :
    readySt.initialized = true ∧
    okChatEnv.messagesList "T" = .ok [msgM2, msgM1] ∧
    getThreadHistory readySt okChatEnv "T" =
      (readySt, .ok ([msgM2, msgM1].reverse.map historyRecordOf)) :=
  ⟨rfl, rfl, (claim_C9_history readySt okChatEnv "T" [msgM2, msgM1] rfl rfl).1⟩

/-- Claim C8: the listing operations fail soft — when the catalog
listing raises, `available_models` returns the empty sequence without
raising, and when the message listing raises, `get_thread_history`
returns the empty sequence without raising. -/
theorem claim_C8_soft_lists (st : AgentState) (env : ChatEnv)
    (tid e1 e2 : String) (h : st.initialized = true)
    (hd : env.init.deployments = .error e1)
    (hm : env.messagesList tid = .error e2) :
    availableModels st env = (st, .ok []) ∧
    getThreadHistory st env tid = (st, .ok []) := by
  constructor
  · simp [availableModels, h, hd]
  · simp [getThreadHistory, h, hm]

/-- Claim C8 witness: both listings degrade to `[]` in the environment
whose catalog and message listings raise. -/
theorem claim_C8_soft_lists_witness :
    readySt.initialized = true ∧
    listFailEnv.init.deployments = .error "catalog down" ∧
    listFailEnv.messagesList "T" = .error "list down" ∧
    availableModels readySt listFailEnv = (readySt, .ok []) ∧
    getThreadHistory readySt listFailEnv "T" = (readySt, .ok []) :=
  ⟨rfl, rfl, rfl,
    (claim_C8_soft_lists readySt listFailEnv "T" "catalog down" "list down"
      rfl rfl rfl).1,
    (claim_C8_soft_lists readySt listFailEnv "T" "catalog down" "list down"
      rfl rfl rfl).2⟩

/-- Every path through the exchange carries the resolved thread id. -/
theorem chatAfterThread_thread_id (st : AgentState) (env : ChatEnv)
    (m tid : String) : (chatAfterThread st env m tid).thread_id = some tid := by
  unfold chatAfterThread
  cases env.messagesCreate tid m with
  | error e => rfl
  | ok u =>
    cases env.runsCreateAndProcess tid st.agent_id with
    | error e => rfl
    | ok run =>
      by_cases hr : (run.status == "failed") = true
      · simp [hr]
      · simp only [Bool.not_eq_true] at hr
        simp only [hr, Bool.false_eq_true, if_false]
        cases env.messagesList tid with
        | error e => rfl
        | ok msgs => rfl

/-- With a supplied thread id, every path of the pipeline returns that
id. -/
theorem chatPipeline_some_thread_id (st : AgentState) (env : ChatEnv)
    (m t : String) :
    (chatPipeline st env m (some t)).thread_id = some t := by
  simp only [chatPipeline]
  cases env.threadsGet t with
  | error e => rfl
  | ok th => exact chatAfterThread_thread_id st env m t

/-- The exchange from the resolved thread on ends in one of exactly
three result shapes: the run-failure dict, the degraded dict of the
outer handler, or the success dict built by extraction. -/
theorem chatAfterThread_shape (st : AgentState) (env : ChatEnv)
    (m t : String) :
    chatAfterThread st env m t =
      { thread_id := some t, response := runFailedApology,
        citations := none, status := "error" } ∨
    chatAfterThread st env m t = degraded (some t) ∨
    ∃ msgs, chatAfterThread st env m t =
      { thread_id := some t, response := responseFromMessages msgs,
        citations := some (citationsFromMessages msgs),
        status := "success" } := by
  unfold chatAfterThread
  cases env.messagesCreate t m with
  | error e => exact Or.inr (Or.inl rfl)
  | ok u =>
    cases env.runsCreateAndProcess t st.agent_id with
    | error e => exact Or.inr (Or.inl rfl)
    | ok run =>
      by_cases hr : (run.status == "failed") = true
      · exact Or.inl (by simp [hr])
      · simp only [Bool.not_eq_true] at hr
        simp only [hr, Bool.false_eq_true, if_false]
        cases env.messagesList t with
        | error e => exact Or.inr (Or.inl rfl)
        | ok msgs => exact Or.inr (Or.inr ⟨msgs, rfl⟩)

/-- The pipeline's result is a degraded dict, the run-failure dict, or
a success dict. -/
theorem chatPipeline_shape (st : AgentState) (env : ChatEnv)
    (m : String) (tid : Option String) :
    (∃ t0, chatPipeline st env m tid = degraded t0) ∨
    (∃ t, chatPipeline st env m tid =
      { thread_id := some t, response := runFailedApology,
        citations := none, status := "error" }) ∨
    (∃ t msgs, chatPipeline st env m tid =
      { thread_id := some t, response := responseFromMessages msgs,
        citations := some (citationsFromMessages msgs),
        status := "success" }) := by
  cases tid with
  | some t =>
    simp only [chatPipeline]
    cases env.threadsGet t with
    | error e => exact Or.inl ⟨some t, rfl⟩
    | ok th =>
      rcases chatAfterThread_shape st env m t with h | h | ⟨msgs, h⟩
      · exact Or.inr (Or.inl ⟨t, h⟩)
      · exact Or.inl ⟨some t, h⟩
      · exact Or.inr (Or.inr ⟨t, msgs, h⟩)
  | none =>
    simp only [chatPipeline]
    cases env.threadsCreate with
    | error e => exact Or.inl ⟨none, rfl⟩
    | ok th =>
      rcases chatAfterThread_shape st env m th.id with h | h | ⟨msgs, h⟩
      · exact Or.inr (Or.inl ⟨th.id, h⟩)
      · exact Or.inl ⟨some th.id, h⟩
      · exact Or.inr (Or.inr ⟨th.id, msgs, h⟩)

/-- Claim C2: when the run's terminal status is `failed`, `chat`
returns status `error` with the fixed non-empty apology and the
resolved thread id and raises nothing; the response is the same for
every `last_error` the provider reports (no error content is echoed);
for any other terminal status the exchange proceeds to extraction and
(when listing succeeds) returns the extracted success result. -/
theorem claim_C2_run_failure (st : AgentState) (env : ChatEnv)
    (m t : String) (th : ThreadH) (run : RunR)
    (h : st.initialized = true)
    (hget : env.threadsGet t = .ok th)
    (hmsg : env.messagesCreate t m = .ok ())
    (hrun : env.runsCreateAndProcess t st.agent_id = .ok run) :
    (run.status = "failed" →
      chat st env m (some t) =
        (st, .ok { thread_id := some t, response := runFailedApology,
                   citations := none, status := "error" }) ∧
      runFailedApology ≠ "" ∧
      (∀ (env2 : ChatEnv) (le : String),
        env2.messagesCreate t m = .ok () →
        env2.runsCreateAndProcess t st.agent_id =
          Except.ok (RunR.mk "failed" le) →
        chatAfterThread st env2 m t =
          { thread_id := some t, response := runFailedApology,
            citations := none, status := "error" })) ∧
    (run.status ≠ "failed" → ∀ msgs, env.messagesList t = .ok msgs →
      chat st env m (some t) =
        (st, .ok { thread_id := some t,
                   response := responseFromMessages msgs,
                   citations := some (citationsFromMessages msgs),
                   status := "success" })) := by
  constructor
  · intro hf
    refine ⟨?_, by simp [runFailedApology], ?_⟩
    · simp [chat, h, chatPipeline, hget, chatAfterThread, hmsg, hrun, hf]
    · intro env2 le hmsg2 hrun2
      simp [chatAfterThread, hmsg2, hrun2]
  · intro hne msgs hlist
    have hb : (run.status == "failed") = false := by
      simp [hne]
    simp [chat, h, chatPipeline, hget, chatAfterThread, hmsg, hrun, hb, hlist]

/-- Claim C2 witness: the fixture whose run fails with a provider
error message yields the fixed degraded result. -/
theorem claim_C2_run_failure_witness :
    readySt.initialized = true ∧
    failedRunEnv.runsCreateAndProcess "T" readySt.agent_id =
      .ok failedRun ∧
    failedRun.status = "failed" ∧
    chat readySt failedRunEnv "hi" (some "T") =
      (readySt, .ok { thread_id := some "T", response := runFailedApology,
                      citations := none, status := "error" }) :=
  ⟨rfl, rfl, rfl,
    ((claim_C2_run_failure readySt failedRunEnv "hi" "T" { id := "T" }
      failedRun rfl rfl rfl rfl).1 rfl).1⟩

/-- Claim C5: with a supplied thread id the exchange fetches that
thread and never consults thread creation, a resolution failure leads
to the degraded result for that same id rather than a silently created
replacement, and the returned thread id equals the supplied one on
every path; with no thread id, the freshly created thread's id is
returned, and it is distinct from every previously created id whenever
the provider assigns a fresh one. -/
theorem claim_C5_thread_resolution (st : AgentState) (env : ChatEnv)
    (m t : String) (h : st.initialized = true) :
    chat st env m (some t) = (st, .ok (chatPipeline st env m (some t))) ∧
    (chatPipeline st env m (some t)).thread_id = some t ∧
    (∀ c, chatPipeline st { env with threadsCreate := c } m (some t) =
          chatPipeline st env m (some t)) ∧
    (∀ e, env.threadsGet t = .error e →
          chatPipeline st env m (some t) = degraded (some t)) ∧
    (∀ th : ThreadH, env.threadsCreate = .ok th →
          (chatPipeline st env m none).thread_id = some th.id) ∧
    (∀ (th : ThreadH) (prior : List String),
        env.threadsCreate = .ok th → th.id ∉ prior →
        ∃ nid, (chatPipeline st env m none).thread_id = some nid ∧
          nid ∉ prior) := by
  refine ⟨by simp [chat, h], chatPipeline_some_thread_id st env m t,
    fun c => rfl, ?_, ?_, ?_⟩
  · intro e he
    simp [chatPipeline, he]
  · intro th hth
    simp [chatPipeline, hth, chatAfterThread_thread_id]
  · intro th prior hth hni
    exact ⟨th.id, by simp [chatPipeline, hth, chatAfterThread_thread_id], hni⟩

/-- Claim C5 witness: the fixture environment returns the supplied id
"T" when one is given and the freshly created id "thread-1" when none
is. -/
theorem claim_C5_thread_resolution_witness :
    readySt.initialized = true ∧
    okChatEnv.threadsCreate = Except.ok { id := "thread-1" } ∧
    (chatPipeline readySt okChatEnv "hi" (some "T")).thread_id = some "T" ∧
    (chatPipeline readySt okChatEnv "hi" none).thread_id = some "thread-1" :=
  ⟨rfl, rfl,
    (claim_C5_thread_resolution readySt okChatEnv "hi" "T" rfl).2.1,
    (claim_C5_thread_resolution readySt okChatEnv "hi" "T" rfl).2.2.2.2.1
      { id := "thread-1" } rfl⟩

/-- Claim C1 counterexample: with a freshly constructed (uninitialized)
instance and an environment whose remote agent creation raises, `chat`
raises — the lazy self-initialization of rag_agent.py:174-175 runs
before the `try` block — so it does not return a degraded `ChatResult`
as the claim requires. -/
theorem claim_C1_counterexample :
    (chat initialState badChatEnv "hello" none).2 =
      Except.error "agent creation failed" := rfl

/-- Claim C1 (amended): once initialization has succeeded, `chat` never
raises — it always returns a `ChatResult` whose status is `success` or
`error` and whose response on the error paths is one of the two generic
apologies; its thread_id is the supplied id whenever one was given, the
freshly created thread's id when creation succeeded, and none when no
id was supplied and creation raised.  An exception raised during lazy
self-initialization instead propagates out of `chat`. -/
theorem claim_C1_safety_net (st : AgentState) (env : ChatEnv) (m : String)
    (tid : Option String) (h : st.initialized = true) :
    chat st env m tid = (st, .ok (chatPipeline st env m tid)) ∧
    ((chatPipeline st env m tid).status = "success" ∨
      ((chatPipeline st env m tid).status = "error" ∧
       ((chatPipeline st env m tid).response = runFailedApology ∨
        (chatPipeline st env m tid).response = unexpectedApology))) ∧
    (∀ t, tid = some t → (chatPipeline st env m tid).thread_id = some t) ∧
    (tid = none → ∀ e, env.threadsCreate = .error e →
        chatPipeline st env m tid = degraded none) ∧
    (tid = none → ∀ th : ThreadH, env.threadsCreate = .ok th →
        (chatPipeline st env m tid).thread_id = some th.id) := by
  refine ⟨by simp [chat, h], ?_, ?_, ?_, ?_⟩
  · rcases chatPipeline_shape st env m tid with ⟨t0, hp⟩ | ⟨t, hp⟩ |
      ⟨t, msgs, hp⟩
    · exact Or.inr ⟨by simp [hp, degraded], Or.inr (by simp [hp, degraded])⟩
    · exact Or.inr ⟨by simp [hp], Or.inl (by simp [hp])⟩
    · exact Or.inl (by simp [hp])
  · intro t ht
    subst ht
    exact chatPipeline_some_thread_id st env m t
  · intro ht e he
    subst ht
    simp [chatPipeline, he]
  · intro ht th hth
    subst ht
    simp [chatPipeline, hth, chatAfterThread_thread_id]

/-- Claim C1 witness: the amended safety net applied to the initialized
fixture state and the all-success environment. -/
theorem claim_C1_safety_net_witness :
    readySt.initialized = true ∧
    chat readySt okChatEnv "hi" (some "T") =
      (readySt, .ok (chatPipeline readySt okChatEnv "hi" (some "T"))) :=
  ⟨rfl, (claim_C1_safety_net readySt okChatEnv "hi" (some "T") rfl).1⟩

/-- The success result produced by the all-success fixture environment. -/
def okResult : ChatResult :=
  { thread_id := some "T", response := "B",
    citations := some [{ title := "t", url := "u" }], status := "success" }

/-- Claim C4 counterexample: on the classified run-failure path the
dict `chat` returns carries no citations entry (`citations = none`
in the model), so not every result of `chat` contains all four
`ChatResult` fields. -/
theorem claim_C4_counterexample :
    chat readySt failedRunEnv "hi" (some "T") =
      (readySt, .ok { thread_id := some "T", response := runFailedApology,
                      citations := none, status := "error" }) := rfl

/-- Claim C4 (amended): every result `chat` returns has the fields
thread_id, response and status, with status either `success` or
`error`; the citations field is present exactly on the success path
and is absent from the run-failure and unexpected-exception results. -/
theorem claim_C4_result_fields (st : AgentState) (env : ChatEnv)
    (m : String) (tid : Option String) (r : ChatResult)
    (h : (chat st env m tid).2 = .ok r) :
    (r.status = "success" ∨ r.status = "error") ∧
    (r.status = "success" ↔ r.citations.isSome = true) := by
  have hr : ∃ st0, r = chatPipeline st0 env m tid := by
    by_cases hi : st.initialized = true
    · refine ⟨st, ?_⟩
      simp [chat, hi] at h
      exact h.symm
    · simp only [Bool.not_eq_true] at hi
      rcases hI : initAgent st env.init none with ⟨st1, res, evs⟩
      cases res with
      | error e =>
        exfalso
        simp [chat, hi, hI] at h
      | ok u =>
        refine ⟨st1, ?_⟩
        simp [chat, hi, hI] at h
        exact h.symm
  rcases hr with ⟨st0, rfl⟩
  rcases chatPipeline_shape st0 env m tid with ⟨t0, hp⟩ | ⟨t, hp⟩ |
    ⟨t, msgs, hp⟩ <;> rw [hp]
  · exact ⟨Or.inr rfl,
      ⟨fun hx => absurd (show ("error" : String) = "success" from hx)
        (by decide),
       fun hx => by simp [degraded] at hx⟩⟩
  · exact ⟨Or.inr rfl,
      ⟨fun hx => absurd (show ("error" : String) = "success" from hx)
        (by decide),
       fun hx => by simp at hx⟩⟩
  · exact ⟨Or.inl rfl, ⟨fun _ => rfl, fun _ => rfl⟩⟩

/-- Claim C4 witness: the amended field contract applied to the
success result of the all-success fixture. -/
theorem claim_C4_result_fields_witness :
    (chat readySt okChatEnv "hi" (some "T")).2 = Except.ok okResult ∧
    ((okResult.status = "success" ∨ okResult.status = "error") ∧
     (okResult.status = "success" ↔ okResult.citations.isSome = true)) :=
  ⟨rfl, claim_C4_result_fields readySt okChatEnv "hi" (some "T") okResult rfl⟩

/-- The model `initAgent` selects: the resolved name or the configured
default (rag_agent.py:93-94). -/
def selModel (env : InitEnv) (mn : Option String) : String :=
  (getModelByName env mn).getD env.model_deployment_name

/-- The instance state right after model selection inside `initAgent`. -/
def selSt (st : AgentState) (env : InitEnv) (mn : Option String) : AgentState :=
  { st with selected_model := some (selModel env mn) }

/-- On remote creation failure, `initAgent` propagates the error and
leaves everything but the selected model untouched: the flag, the held
agent id, and only a deletion request in the trace. -/
theorem initAgent_create_error (st : AgentState) (env : InitEnv)
    (mn : Option String) (e : String) (hc : env.createResult = .error e) :
    initAgent st env mn =
      (selSt st env mn, .error e, runDeleteAgent (selSt st env mn) env) := by
  simp [initAgent, createAgent, hc, selSt, selModel]

/-- On remote creation success, `initAgent` succeeds with the flag set
and the fresh agent id stored. -/
theorem initAgent_create_ok (st : AgentState) (env : InitEnv)
    (mn : Option String) (ag : Agent) (hc : env.createResult = .ok ag) :
    (initAgent st env mn).2.1 = .ok () ∧
    (initAgent st env mn).1.initialized = true ∧
    (initAgent st env mn).1.agent_id = some ag.id := by
  refine ⟨?_, ?_, ?_⟩ <;> simp [initAgent, createAgent, hc]

/-- Claim C6: provisioning is idempotent by replacement — the outcome
of `_create_agent` is the same whatever the deletion outcome (deletion
failure is swallowed and never blocks creation), deletion of a
previously held agent is always requested first, and the one failure
that is not swallowed is remote agent creation failure, which
propagates out of `initAgent` to its caller. -/
theorem claim_C6_idempotent_replacement (st : AgentState) (env : InitEnv)
    (d : Except String Unit) (aid : String) (mn : Option String)
    (e : String) :
    createAgent st { env with deleteResult := d } = createAgent st env ∧
    (st.agent_id = some aid →
      (createAgent st env).2.2.head? =
        some (AgentEvent.deleteRequested aid)) ∧
    (env.createResult = .error e →
      (initAgent st env mn).2.1 = .error e) := by
  have hdel : runDeleteAgent st { env with deleteResult := d } =
      runDeleteAgent st env := by
    unfold runDeleteAgent
    cases st.agent_id with
    | none => rfl
    | some aid2 => cases d <;> cases env.deleteResult <;> rfl
  refine ⟨?_, ?_, ?_⟩
  · simp only [createAgent, hdel]
  · intro ha
    simp only [createAgent, runDeleteAgent, ha]
    cases env.deleteResult <;> cases env.createResult <;> rfl
  · intro hc
    rw [initAgent_create_error st env mn e hc]

/-- Claim C6 witness: with a held agent and failing creation, the
deletion request is issued first and the creation error propagates. -/
theorem claim_C6_idempotent_replacement_witness :
    readySt.agent_id = some "agent-0" ∧
    badInitEnv.createResult = Except.error "agent creation failed" ∧
    (createAgent readySt badInitEnv).2.2.head? =
      some (AgentEvent.deleteRequested "agent-0") ∧
    (initAgent readySt badInitEnv none).2.1 =
      Except.error "agent creation failed" := by
  refine ⟨rfl, rfl, ?_, ?_⟩
  · exact (claim_C6_idempotent_replacement readySt badInitEnv
      (Except.error "boom") "agent-0" none "agent creation failed").2.1 rfl
  · exact (claim_C6_idempotent_replacement readySt badInitEnv
      (Except.error "boom") "agent-0" none "agent creation failed").2.2 rfl

/-- Claim C7: the instance holds at most one agent handle — on a
successful provision the single optional agent id is wholly replaced by
the newly created agent's id, and when a previous agent existed its
deletion was requested before the new agent was created (the deletion
event strictly precedes the creation event in the trace). -/
theorem claim_C7_single_agent (st : AgentState) (env : InitEnv)
    (ag : Agent) (hc : env.createResult = .ok ag) :
    (createAgent st env).1 = { st with agent_id := some ag.id } ∧
    (createAgent st env).2.1 = .ok () ∧
    (st.agent_id = none →
      (createAgent st env).2.2 = [AgentEvent.created ag.id]) ∧
    (∀ old, st.agent_id = some old →
      (createAgent st env).2.2 =
        [AgentEvent.deleteRequested old, AgentEvent.created ag.id]) := by
  refine ⟨?_, ?_, ?_, ?_⟩
  · simp [createAgent, hc]
  · simp [createAgent, hc]
  · intro ha
    simp [createAgent, runDeleteAgent, ha, hc]
  · intro old ha
    simp only [createAgent, runDeleteAgent, ha, hc]
    cases env.deleteResult <;> rfl

/-- Claim C7 witness: provisioning over a held agent replaces the
handle and the trace shows deletion requested before creation. -/
theorem claim_C7_single_agent_witness :
    okInitEnv.createResult = Except.ok { id := "agent-1" } ∧
    readySt.agent_id = some "agent-0" ∧
    (createAgent readySt okInitEnv).1 =
      { readySt with agent_id := some "agent-1" } ∧
    (createAgent readySt okInitEnv).2.2 =
      [AgentEvent.deleteRequested "agent-0",
       AgentEvent.created "agent-1"] := by
  refine ⟨rfl, rfl, ?_, ?_⟩
  · exact (claim_C7_single_agent readySt okInitEnv { id := "agent-1" }
      rfl).1
  · exact (claim_C7_single_agent readySt okInitEnv { id := "agent-1" }
      rfl).2.2.2 "agent-0" rfl

/-- Claim C10: the initialized flag becomes true only after remote
agent creation succeeds — on provisioning failure `initAgent` raises
with the flag and the held agent id untouched (so a fresh instance
stays uninitialized and `chat`, `get_thread_history` and
`available_models` re-attempt full initialization and surface that
failure instead of proceeding with a missing agent); on success the
flag is true and the agent id is the newly created one; a true flag
always comes with a non-None agent id. -/
theorem claim_C10_initialized_flag (st : AgentState) (env : ChatEnv)
    (ienv : InitEnv) (mn : Option String) (m t : String)
    (tid : Option String) (e : String) (ag : Agent) :
    (ienv.createResult = .error e →
      (initAgent st ienv mn).2.1 = .error e ∧
      (initAgent st ienv mn).1.initialized = st.initialized ∧
      (initAgent st ienv mn).1.agent_id = st.agent_id) ∧
    (ienv.createResult = .ok ag →
      (initAgent st ienv mn).2.1 = .ok () ∧
      (initAgent st ienv mn).1.initialized = true ∧
      (initAgent st ienv mn).1.agent_id = some ag.id) ∧
    initialState.initialized = false ∧
    ((st.initialized = true → st.agent_id.isSome = true) →
      (initAgent st ienv mn).1.initialized = true →
      (initAgent st ienv mn).1.agent_id.isSome = true) ∧
    (st.initialized = false → env.init.createResult = .error e →
      (chat st env m tid).2 = .error e ∧
      (getThreadHistory st env t).2 = .error e ∧
      (availableModels st env).2 = .error e) := by
  refine ⟨?_, ?_, rfl, ?_, ?_⟩
  · intro hc
    rw [initAgent_create_error st ienv mn e hc]
    exact ⟨rfl, rfl, rfl⟩
  · intro hc
    exact initAgent_create_ok st ienv mn ag hc
  · cases hcr : ienv.createResult with
    | error e2 =>
      rw [initAgent_create_error st ienv mn e2 hcr]
      intro hinv hin
      exact hinv hin
    | ok ag2 =>
      intro _ _
      rw [(initAgent_create_ok st ienv mn ag2 hcr).2.2]
      rfl
  · intro hf he
    have hIA := initAgent_create_error st env.init none e he
    refine ⟨?_, ?_, ?_⟩
    · simp [chat, hf, hIA]
    · simp [getThreadHistory, hf, hIA]
    · simp [availableModels, hf, hIA]

/-- Claim C10 witness: a fresh instance with failing creation stays
uninitialized and `chat` surfaces the initialization failure. -/
theorem claim_C10_initialized_flag_witness :
    initialState.initialized = false ∧
    badChatEnv.init.createResult = Except.error "agent creation failed" ∧
    (chat initialState badChatEnv "hi" none).2 =
      Except.error "agent creation failed" ∧
    (initAgent initialState badInitEnv none).1.initialized = false := by
  refine ⟨rfl, rfl, ?_, ?_⟩
  · exact ((claim_C10_initialized_flag initialState badChatEnv badInitEnv
      none "hi" "T" none "agent creation failed" { id := "agent-1" }
      ).2.2.2.2 rfl rfl).1
  · exact ((claim_C10_initialized_flag initialState badChatEnv badInitEnv
      none "hi" "T" none "agent creation failed" { id := "agent-1" }
      ).1 rfl).2.1.trans rfl
